import Mathlib

/-!
Shallow embedding of the SEV2 auto-splitter (`src/lib.rs`) together with the
watcher primitives it uses from the `asr` support library
(`asr::watcher::{Watcher, Pair}` and `asr::string::ArrayCString`).

Modelling choices:
* `u8` memory values are modelled as `Nat` (the code only compares them for
  equality, no arithmetic is performed).
* `ArrayCString<2>` level codes are modelled as `String`; `matches` is byte
  equality with the given text and `is_empty` is equality with the empty
  string.
* Fallible memory reads (`process.read`) are modelled as `Option` inputs to
  `update_loop`; `unwrap_or_default` / `unwrap_or_else(|_| 1)` become
  `Option.getD`.
* `asr::timer` commands and `asr::set_tick_rate` become a `Command` list
  emitted by one iteration (`tick`) of the main loop.  The tick-rate argument
  is the `f64` constant `60.0` / `120.0`, modelled as the exact `Nat` it
  denotes.  `timer::state()` is read twice per iteration in the source
  (once before the running branch, once before the start branch), so `tick`
  takes both observations as inputs.
-/

namespace SEV2

/-- `asr::watcher::Pair`: the previous (`old`) and current sampled value of
one watched memory cell. -/
structure Pair (α : Type) where
  old : α
  current : α
deriving DecidableEq, Repr

/-- `Pair::check`: the predicate holds for the current value but not for the
old one. -/
def Pair.check {α : Type} (p : Pair α) (f : α → Bool) : Bool :=
  !f p.old && f p.current

/-- `Pair::changed`: old and current differ. -/
def Pair.changed {α : Type} [DecidableEq α] (p : Pair α) : Bool :=
  decide (p.old ≠ p.current)

/-- `Pair::changed_to(value)`: the value changed to `value` from something
else. -/
def Pair.changed_to {α : Type} [DecidableEq α] (p : Pair α) (value : α) : Bool :=
  p.check (fun v => decide (v = value))

/-- `Pair::changed_from(value)`: the value changed away from `value`. -/
def Pair.changed_from {α : Type} [DecidableEq α] (p : Pair α) (value : α) : Bool :=
  p.check (fun v => decide (v ≠ value))

/-- `Pair::changed_from_to(old, current)`. -/
def Pair.changed_from_to {α : Type} [DecidableEq α] (p : Pair α) (o c : α) : Bool :=
  p.changed_from o && p.changed_to c

/-- `asr::watcher::Watcher`: an optional pair (no pair before the first
sample). -/
structure Watcher (α : Type) where
  pair : Option (Pair α)
deriving DecidableEq, Repr

/-- `Watcher::update_infallible`: the first sample initialises both sides of
the pair; afterwards the old current value is shifted into `old`. -/
def Watcher.update_infallible {α : Type} (w : Watcher α) (value : α) : Watcher α :=
  match w.pair with
  | none => ⟨some ⟨value, value⟩⟩
  | some p => ⟨some ⟨p.current, value⟩⟩

/-- `Option::is_some_and` as used on `Watcher::pair`. -/
def is_some_and {α : Type} (o : Option α) (f : α → Bool) : Bool :=
  match o with
  | some v => f v
  | none => false

/-- `ArrayCString::<2>::matches(text)`: the stored bytes equal `text`.
Modelled on the `String` representation of the level code. -/
def cstr_matches (s text : String) : Bool :=
  decide (s = text)

/-- `ArrayCString::<2>::is_empty`: the stored string has length zero. -/
def cstr_is_empty (s : String) : Bool :=
  decide (s = "")

/-- The `Settings` GUI struct: two booleans, both defaulting to false. -/
structure Settings where
  individual_level : Bool
  slow_pc_mode : Bool
deriving DecidableEq, Repr

/-- An absolute memory address (`asr::Address`). -/
abbrev Address := Nat

/-- The `Memory` struct: the seven resolved absolute addresses. -/
structure Memory where
  start : Address
  load : Address
  splash : Address
  level : Address
  bullet : Address
  objective : Address
  mc : Address
deriving DecidableEq, Repr

/-- `Memory::init`, after the retries for module base and image size have
succeeded: classify by image size and add the per-variant offsets. -/
def Memory.init (main_module_base : Nat) (main_module_size : Nat) : Memory :=
  match main_module_size with
  | 0x1154000 =>
      { -- remastered
        start := main_module_base + 0x799A77
        load := main_module_base + 0x774FE3
        splash := main_module_base + 0x74C670
        level := main_module_base + 0x7CFC7D
        bullet := main_module_base + 0x76DD17
        objective := main_module_base + 0x7CF568
        mc := main_module_base + 0x799A63 }
  | _ =>
      { -- OG?
        start := main_module_base + 0x689FE2
        load := main_module_base + 0x67FC38
        splash := main_module_base + 0x653B40
        level := main_module_base + 0x685F31
        bullet := main_module_base + 0x65B917
        objective := main_module_base + 0x656F3C
        mc := main_module_base + 0x689FD2 }

/-- The `Watchers` struct: one watcher per watched quantity plus the
remembered `slow_pc_mode` value. -/
structure Watchers where
  slow_pc_mode : Bool
  start_byte : Watcher Nat
  load_byte : Watcher Nat
  splash_byte : Watcher Nat
  level : Watcher String
  bullet_cam : Watcher Nat
  objective : Watcher Nat
  mc : Watcher Nat
deriving DecidableEq, Repr

/-- `Watchers::default()` (`#[derive(Default)]`): every watcher empty, the
boolean false. -/
def Watchers.default : Watchers :=
  { slow_pc_mode := false
    start_byte := ⟨none⟩
    load_byte := ⟨none⟩
    splash_byte := ⟨none⟩
    level := ⟨none⟩
    bullet_cam := ⟨none⟩
    objective := ⟨none⟩
    mc := ⟨none⟩ }

/-- The outcome of the seven memory reads attempted on one tick:
`none` models a failed `process.read`. -/
structure Reads where
  start_read : Option Nat
  load_read : Option Nat
  splash_read : Option Nat
  level_read : Option String
  bullet_read : Option Nat
  objective_read : Option Nat
  mc_read : Option Nat
deriving DecidableEq, Repr

/-- `update_loop`: refresh all seven watchers; a failed read substitutes the
field-specific default (`unwrap_or_default` gives `0` for bytes and the
empty string for the level code, `unwrap_or_else(|_| 1)` gives `1` for the
load and splash bytes). -/
def update_loop (reads : Reads) (watchers : Watchers) : Watchers :=
  { watchers with
    start_byte := watchers.start_byte.update_infallible (reads.start_read.getD 0)
    load_byte := watchers.load_byte.update_infallible (reads.load_read.getD 1)
    splash_byte := watchers.splash_byte.update_infallible (reads.splash_read.getD 1)
    bullet_cam := watchers.bullet_cam.update_infallible (reads.bullet_read.getD 0)
    objective := watchers.objective.update_infallible (reads.objective_read.getD 0)
    mc := watchers.mc.update_infallible (reads.mc_read.getD 0)
    level := watchers.level.update_infallible (reads.level_read.getD "") }

/-- `start`: IL mode looks for a 0→1 splash transition with a level code
other than "nu"; full-game mode looks for the start byte changing to 1. -/
def start (watchers : Watchers) (settings : Settings) : Bool :=
  match settings.individual_level with
  | true =>
      is_some_and watchers.splash_byte.pair (fun val =>
        val.changed_from_to 0 1 &&
          is_some_and watchers.level.pair (fun val =>
            !cstr_matches val.current "nu"))
  | false =>
      is_some_and watchers.start_byte.pair (fun val => val.changed_to 1)

/-- `is_loading`.  The Rust body is
`Some(load_byte.pair?.current == 1 && splash_byte.pair?.current == 1)`:
the `?` on the load pair runs first; if the load byte is not 1 the `&&`
short-circuits and the splash pair (and its `?`) is never consulted. -/
def is_loading (watchers : Watchers) (_settings : Settings) : Option Bool :=
  match watchers.load_byte.pair with
  | none => none
  | some l =>
    if l.current = 1 then
      match watchers.splash_byte.pair with
      | none => none
      | some s => some (decide (s.current = 1))
    else
      some false

/-- First disjunct of the full-game `split`: the level code changed, is
non-empty, and is neither "nu" nor "Tu".  `val.matches("Tu")` in the source
goes through `Pair`'s `Deref` to the current value. -/
def levelChangeBranch (watchers : Watchers) : Bool :=
  is_some_and watchers.level.pair (fun val =>
    val.changed && !cstr_is_empty val.current &&
      !cstr_matches val.current "nu" && !cstr_matches val.current "Tu")

/-- Second disjunct of the full-game `split`: level currently "Br",
bullet_cam currently 1, objective currently 3. -/
def endOfMissionBranch (watchers : Watchers) : Bool :=
  is_some_and watchers.level.pair (fun val => cstr_matches val.current "Br") &&
    is_some_and watchers.bullet_cam.pair (fun val => decide (val.current = 1)) &&
    is_some_and watchers.objective.pair (fun val => decide (val.current = 3))

/-- `split`: IL mode looks for the main-character byte changing to 1;
full-game mode is the disjunction of the two branches above. -/
def split (watchers : Watchers) (settings : Settings) : Bool :=
  match settings.individual_level with
  | true => is_some_and watchers.mc.pair (fun val => val.changed_to 1)
  | false => levelChangeBranch watchers || endOfMissionBranch watchers

/-- `game_time`: reserved hook, always no adjustment.  `Duration` is
modelled as `Int`. -/
def game_time (_watchers : Watchers) (_settings : Settings) (_addresses : Memory) :
    Option Int :=
  none

/-- `reset`: reserved hook, always false. -/
def reset (_watchers : Watchers) (_settings : Settings) : Bool :=
  false

/-- `asr::timer::TimerState`. -/
inductive TimerState where
  | NotRunning
  | Running
  | Paused
  | Ended
deriving DecidableEq, Repr

/-- The externally visible commands one loop iteration can issue. -/
inductive Command where
  | setTickRate (hz : Nat)
  | pauseGameTime
  | resumeGameTime
  | setGameTime (t : Int)
  | reset
  | split
  | start
deriving DecidableEq, Repr

/-- Commands issued by a `match is_loading(..)` block
(`Some(true) => pause_game_time`, `Some(false) => resume_game_time`). -/
def loading_cmds (o : Option Bool) : List Command :=
  match o with
  | some true => [Command.pauseGameTime]
  | some false => [Command.resumeGameTime]
  | none => []

/-- Commands issued by the `match game_time(..)` block. -/
def game_time_cmds (o : Option Int) : List Command :=
  match o with
  | some x => [Command.setGameTime x]
  | none => []

/-- Commands issued by the `match reset(..)` block: reset takes precedence,
`split` is only consulted when `reset` returned false. -/
def reset_split_cmds (r s : Bool) : List Command :=
  match r with
  | true => [Command.reset]
  | false =>
    match s with
    | true => [Command.split]
    | false => []

/-- Commands of the `Running`/`Paused` branch of the loop body. -/
def run_cmds (watchers : Watchers) (settings : Settings) (addresses : Memory) :
    List Command :=
  loading_cmds (is_loading watchers settings) ++
    game_time_cmds (game_time watchers settings addresses) ++
    reset_split_cmds (reset watchers settings) (split watchers settings)

/-- Commands of the `NotRunning` branch once `start` returned true. -/
def start_cmds (watchers : Watchers) (settings : Settings) : List Command :=
  [Command.start, Command.pauseGameTime] ++ loading_cmds (is_loading watchers settings)

/-- The state effect of the tick-rate block: when the stored `slow_pc_mode`
differs from the setting just read, remember the new value. -/
def rate_watchers (watchers : Watchers) (settings : Settings) : Watchers :=
  if watchers.slow_pc_mode ≠ settings.slow_pc_mode then
    { watchers with slow_pc_mode := settings.slow_pc_mode }
  else
    watchers

/-- The command effect of the tick-rate block: when the stored
`slow_pc_mode` differs from the setting just read, issue `set_tick_rate`
(60.0 on a slow PC, 120.0 otherwise). -/
def rate_cmds (watchers : Watchers) (settings : Settings) : List Command :=
  if watchers.slow_pc_mode ≠ settings.slow_pc_mode then
    [Command.setTickRate (match settings.slow_pc_mode with
      | true => 60
      | false => 120)]
  else
    []

/-- One iteration of the main loop after `settings.update()`: the tick-rate
side effect, the watcher refresh, the running/paused branch and the
not-running branch, in source order.  `state1` and `state2` are the two
`timer::state()` observations of that iteration. -/
def tick (addresses : Memory) (state1 state2 : TimerState) (settings : Settings)
    (reads : Reads) (watchers : Watchers) : Watchers × List Command :=
  let watchers1 := update_loop reads (rate_watchers watchers settings)
  let runCmds :=
    if state1 = TimerState.Running ∨ state1 = TimerState.Paused then
      run_cmds watchers1 settings addresses
    else []
  let startCmds :=
    if state2 = TimerState.NotRunning ∧ start watchers1 settings = true then
      start_cmds watchers1 settings
    else []
  (watchers1, rate_cmds watchers settings ++ runCmds ++ startCmds)

/-- Recognises the tick-rate command among the emitted commands. -/
def is_tick_rate_cmd : Command → Bool
  | Command.setTickRate _ => true
  | _ => false

/-! ## Helper lemmas -/

@[simp]
theorem is_some_and_none {α : Type} (f : α → Bool) : is_some_and none f = false :=
  rfl

@[simp]
theorem is_some_and_some {α : Type} (v : α) (f : α → Bool) :
    is_some_and (some v) f = f v :=
  rfl

theorem update_infallible_pair_current {α : Type} (w : Watcher α) (v : α) :
    (w.update_infallible v).pair.map Pair.current = some v := by
  cases h : w.pair <;> simp [Watcher.update_infallible, h]

theorem update_infallible_isSome {α : Type} (w : Watcher α) (v : α) :
    (w.update_infallible v).pair.isSome = true := by
  cases h : w.pair <;> simp [Watcher.update_infallible, h]

/-! ## C1: the level-change branch of the full-game split -/

/-- C1.  In full-game mode `split` is the disjunction of the level-change
branch and the end-of-mission branch, and the level-change branch is true
exactly when the level watcher has a sampled pair whose value changed, with
a current code that is non-empty and neither "nu" nor "Tu"; the transition
"nu" → "L1" splits and "L1" → "Tu" does not. -/
theorem split_level_change_characterization (w : Watchers) (b : Bool) :
    (split w ⟨false, b⟩ = (levelChangeBranch w || endOfMissionBranch w)) ∧
    (levelChangeBranch w = true ↔
      ∃ p, w.level.pair = some p ∧ p.old ≠ p.current ∧
        p.current ≠ "" ∧ p.current ≠ "nu" ∧ p.current ≠ "Tu") ∧
    (levelChangeBranch { Watchers.default with level := ⟨some ⟨"nu", "L1"⟩⟩ } = true) ∧
    (split { Watchers.default with level := ⟨some ⟨"nu", "L1"⟩⟩ } ⟨false, b⟩ = true) ∧
    (levelChangeBranch { Watchers.default with level := ⟨some ⟨"L1", "Tu"⟩⟩ } = false) ∧
    (split { Watchers.default with level := ⟨some ⟨"L1", "Tu"⟩⟩ } ⟨false, b⟩ = false) := by
  refine ⟨rfl, ?_, by decide, by cases b <;> decide, by decide, by cases b <;> decide⟩
  cases h : w.level.pair with
  | none => simp [levelChangeBranch, h]
  | some p =>
      simp [levelChangeBranch, h, Pair.changed, cstr_is_empty, cstr_matches,
        and_assoc]

/-- Witness for C1: the concrete "nu" → "L1" transition makes the
full-game split fire. -/
theorem split_level_change_characterization_witness :
    split { Watchers.default with level := ⟨some ⟨"nu", "L1"⟩⟩ }
      ⟨false, false⟩ = true :=
  (split_level_change_characterization Watchers.default false).2.2.2.1

/-! ## C4: the end-of-mission branch of the full-game split -/

/-- C4.  The end-of-mission branch fires exactly when the level code is
currently "Br", the bullet-camera byte is currently 1 and the objective
byte is currently 3 all at once; when the level-change branch does not
fire, the full-game split equals this branch. -/
theorem split_compound_characterization (w : Watchers) (b : Bool) :
    (endOfMissionBranch w = true ↔
      (∃ p, w.level.pair = some p ∧ p.current = "Br") ∧
      (∃ q, w.bullet_cam.pair = some q ∧ q.current = 1) ∧
      (∃ r, w.objective.pair = some r ∧ r.current = 3)) ∧
    (levelChangeBranch w = false →
      (split w ⟨false, b⟩ = true ↔ endOfMissionBranch w = true)) := by
  constructor
  · cases hl : w.level.pair with
    | none => simp [endOfMissionBranch, hl]
    | some p =>
        cases hb : w.bullet_cam.pair with
        | none => simp [endOfMissionBranch, hl, hb]
        | some q =>
            cases ho : w.objective.pair with
            | none => simp [endOfMissionBranch, hl, hb, ho]
            | some r =>
                simp [endOfMissionBranch, hl, hb, ho, cstr_matches, and_assoc]
  · intro h
    simp [split, h]

/-- Witness for C4 at a concrete watcher state: all three conditions hold
with no transition, the level-change branch stays silent, and the split
fires. -/
theorem split_compound_characterization_witness :
    split
      { Watchers.default with
        level := ⟨some ⟨"Br", "Br"⟩⟩
        bullet_cam := ⟨some ⟨1, 1⟩⟩
        objective := ⟨some ⟨3, 3⟩⟩ } ⟨false, false⟩ = true :=
  ((split_compound_characterization
      { Watchers.default with
        level := ⟨some ⟨"Br", "Br"⟩⟩
        bullet_cam := ⟨some ⟨1, 1⟩⟩
        objective := ⟨some ⟨3, 3⟩⟩ } false).2 (by decide)).mpr (by decide)

/-! ## C5: the start predicate in both modes -/

/-- C5.  In IL mode `start` is true exactly on a splash-byte 0→1 transition
with a sampled level code other than "nu" on the same tick; in full-game
mode it is true exactly when the start byte changed to 1 from any other
previous value. -/
theorem start_characterization (w : Watchers) (b : Bool) :
    (start w ⟨true, b⟩ = true ↔
      ∃ p, w.splash_byte.pair = some p ∧ p.old = 0 ∧ p.current = 1 ∧
        ∃ q, w.level.pair = some q ∧ q.current ≠ "nu") ∧
    (start w ⟨false, b⟩ = true ↔
      ∃ p, w.start_byte.pair = some p ∧ p.old ≠ 1 ∧ p.current = 1) := by
  constructor
  · cases hs : w.splash_byte.pair with
    | none => simp [start, hs]
    | some p =>
        cases hl : w.level.pair with
        | none => simp [start, hs, hl]
        | some q =>
            simp only [start, hs, hl, is_some_and_some, Pair.changed_from_to,
              Pair.changed_from, Pair.changed_to, Pair.check, cstr_matches,
              Bool.and_eq_true, Bool.not_eq_true', decide_eq_false_iff_not,
              decide_eq_true_eq, not_not, Option.some.injEq]
            constructor
            · rintro ⟨⟨⟨h1, h2⟩, h3, h4⟩, h5⟩
              exact ⟨p, rfl, h1, h4, q, rfl, h5⟩
            · rintro ⟨p', hp', h1, h2, q', hq', h5⟩
              cases hp'
              cases hq'
              exact ⟨⟨⟨h1, by omega⟩, by omega, h2⟩, h5⟩
  · cases hs : w.start_byte.pair with
    | none => simp [start, hs]
    | some p =>
        simp [start, hs, Pair.changed_to, Pair.check]

/-- Witness for C5: a concrete splash 0→1 transition with level code "L1"
starts the IL run. -/
theorem start_characterization_witness :
    start
      { Watchers.default with
        splash_byte := ⟨some ⟨0, 1⟩⟩
        level := ⟨some ⟨"nu", "L1"⟩⟩ } ⟨true, false⟩ = true :=
  (start_characterization
      { Watchers.default with
        splash_byte := ⟨some ⟨0, 1⟩⟩
        level := ⟨some ⟨"nu", "L1"⟩⟩ } false).1.mpr
    ⟨⟨0, 1⟩, rfl, rfl, rfl, ⟨"nu", "L1"⟩, rfl, by decide⟩

/-! ## C9: the fresh watcher state issues nothing -/

/-- C9.  On the freshly constructed `Watchers` (no sample taken yet), for
every settings value: `start`, `split` and `reset` are false, `game_time`
and `is_loading` have no opinion. -/
theorem fresh_watchers_inert (s : Settings) (addrs : Memory) :
    start Watchers.default s = false ∧
    split Watchers.default s = false ∧
    reset Watchers.default s = false ∧
    game_time Watchers.default s addrs = none ∧
    is_loading Watchers.default s = none := by
  obtain ⟨il, spc⟩ := s
  cases il <;> exact ⟨rfl, rfl, rfl, rfl, rfl⟩

/-- Witness for C9 at concrete settings and addresses. -/
theorem fresh_watchers_inert_witness :
    start Watchers.default ⟨true, false⟩ = false ∧
    split Watchers.default ⟨true, false⟩ = false ∧
    reset Watchers.default ⟨true, false⟩ = false ∧
    game_time Watchers.default ⟨true, false⟩ (Memory.init 0 0) = none ∧
    is_loading Watchers.default ⟨true, false⟩ = none :=
  fresh_watchers_inert ⟨true, false⟩ (Memory.init 0 0)

/-! ## C2: is_loading definedness

The claim that `is_loading` is defined exactly when both the load and the
splash watcher have been sampled fails on the code: the Rust `&&`
short-circuits, so a sampled load byte different from 1 yields
`Some(false)` even while the splash watcher is still unsampled. -/

/-- Counterexample to C2 as stated: with the load watcher sampled at 0 and
the splash watcher unsampled, `is_loading` has an opinion although the
splash watcher was never sampled. -/
theorem is_loading_definedness_cex :
    ¬ ((is_loading { Watchers.default with load_byte := ⟨some ⟨0, 0⟩⟩ }
          ⟨false, false⟩).isSome = true ↔
        (({ Watchers.default with load_byte := ⟨some ⟨0, 0⟩⟩ } :
            Watchers).load_byte.pair.isSome = true ∧
         ({ Watchers.default with load_byte := ⟨some ⟨0, 0⟩⟩ } :
            Watchers).splash_byte.pair.isSome = true)) := by
  decide

/-- C2 amended.  `is_loading` has no opinion exactly when the load watcher
is unsampled, or the load byte is currently 1 and the splash watcher is
unsampled; whenever it has an opinion `b`, `b` is true iff the load byte
is currently 1 and the splash byte is currently 1. -/
theorem is_loading_characterization (w : Watchers) (s : Settings) :
    (is_loading w s = none ↔
      w.load_byte.pair = none ∨
        (∃ p, w.load_byte.pair = some p ∧ p.current = 1 ∧
          w.splash_byte.pair = none)) ∧
    (∀ b, is_loading w s = some b →
      (b = true ↔
        (∃ p, w.load_byte.pair = some p ∧ p.current = 1) ∧
        (∃ q, w.splash_byte.pair = some q ∧ q.current = 1))) := by
  cases hl : w.load_byte.pair with
  | none => simp [is_loading, hl]
  | some l =>
      by_cases hc : l.current = 1
      · cases hs : w.splash_byte.pair with
        | none => simp [is_loading, hl, hc, hs]
        | some q =>
            refine ⟨by simp [is_loading, hl, hc, hs], ?_⟩
            intro b hb
            simp only [is_loading, hl, hc, if_pos, hs] at hb
            cases hb
            simp [hl, hs, hc]
      · refine ⟨by simp [is_loading, hl, hc], ?_⟩
        intro b hb
        simp only [is_loading, hl, hc, if_neg, if_false] at hb
        cases hb
        simp [hl, hc]

/-- Witness for the amended C2 at a concrete state where both watchers are
sampled at 1: the opinion is true and both current values are 1. -/
theorem is_loading_characterization_witness :
    (true = true ↔
      (∃ p, ({ Watchers.default with
                load_byte := ⟨some ⟨1, 1⟩⟩
                splash_byte := ⟨some ⟨1, 1⟩⟩ } : Watchers).load_byte.pair = some p ∧
          p.current = 1) ∧
      (∃ q, ({ Watchers.default with
                load_byte := ⟨some ⟨1, 1⟩⟩
                splash_byte := ⟨some ⟨1, 1⟩⟩ } : Watchers).splash_byte.pair = some q ∧
          q.current = 1)) :=
  (is_loading_characterization
      { Watchers.default with
        load_byte := ⟨some ⟨1, 1⟩⟩
        splash_byte := ⟨some ⟨1, 1⟩⟩ } ⟨false, false⟩).2 true (by decide)

/-! ## C3: the refresh is total with per-field failure defaults -/

/-- C3.  `update_loop` always updates all seven watchers (each pair is
populated afterwards), and a failed read substitutes the field-specific
default: 0 for the start, bullet-camera, objective and main-character
bytes, the empty string for the level code, and 1 for the load and splash
bytes. -/
theorem update_loop_total_and_defaults (w : Watchers) (r : Reads) :
    ((update_loop r w).start_byte.pair.isSome = true ∧
     (update_loop r w).load_byte.pair.isSome = true ∧
     (update_loop r w).splash_byte.pair.isSome = true ∧
     (update_loop r w).level.pair.isSome = true ∧
     (update_loop r w).bullet_cam.pair.isSome = true ∧
     (update_loop r w).objective.pair.isSome = true ∧
     (update_loop r w).mc.pair.isSome = true) ∧
    (r.start_read = none →
      (update_loop r w).start_byte.pair.map Pair.current = some 0) ∧
    (r.load_read = none →
      (update_loop r w).load_byte.pair.map Pair.current = some 1) ∧
    (r.splash_read = none →
      (update_loop r w).splash_byte.pair.map Pair.current = some 1) ∧
    (r.level_read = none →
      (update_loop r w).level.pair.map Pair.current = some "") ∧
    (r.bullet_read = none →
      (update_loop r w).bullet_cam.pair.map Pair.current = some 0) ∧
    (r.objective_read = none →
      (update_loop r w).objective.pair.map Pair.current = some 0) ∧
    (r.mc_read = none →
      (update_loop r w).mc.pair.map Pair.current = some 0) := by
  refine ⟨⟨?_, ?_, ?_, ?_, ?_, ?_, ?_⟩, ?_, ?_, ?_, ?_, ?_, ?_, ?_⟩ <;>
    first
      | exact update_infallible_isSome _ _
      | (intro h
         simp only [update_loop, h, Option.getD_none]
         exact update_infallible_pair_current _ _)

/-- Witness for C3: with every read failing, the refreshed bank holds the
per-field defaults. -/
theorem update_loop_total_and_defaults_witness :
    (update_loop ⟨none, none, none, none, none, none, none⟩
        Watchers.default).start_byte.pair.map Pair.current = some 0 ∧
    (update_loop ⟨none, none, none, none, none, none, none⟩
        Watchers.default).load_byte.pair.map Pair.current = some 1 ∧
    (update_loop ⟨none, none, none, none, none, none, none⟩
        Watchers.default).splash_byte.pair.map Pair.current = some 1 ∧
    (update_loop ⟨none, none, none, none, none, none, none⟩
        Watchers.default).level.pair.map Pair.current = some "" ∧
    (update_loop ⟨none, none, none, none, none, none, none⟩
        Watchers.default).bullet_cam.pair.map Pair.current = some 0 ∧
    (update_loop ⟨none, none, none, none, none, none, none⟩
        Watchers.default).objective.pair.map Pair.current = some 0 ∧
    (update_loop ⟨none, none, none, none, none, none, none⟩
        Watchers.default).mc.pair.map Pair.current = some 0 :=
  ⟨(update_loop_total_and_defaults Watchers.default _).2.1 rfl,
   (update_loop_total_and_defaults Watchers.default _).2.2.1 rfl,
   (update_loop_total_and_defaults Watchers.default _).2.2.2.1 rfl,
   (update_loop_total_and_defaults Watchers.default _).2.2.2.2.1 rfl,
   (update_loop_total_and_defaults Watchers.default _).2.2.2.2.2.1 rfl,
   (update_loop_total_and_defaults Watchers.default _).2.2.2.2.2.2.1 rfl,
   (update_loop_total_and_defaults Watchers.default _).2.2.2.2.2.2.2 rfl⟩

/-! ## C8: address-table classification by image size -/

/-- C8.  A successful resolution yields a total table classified solely by
the image size: size 0x1154000 gives exactly the Remastered offsets, any
other size gives exactly the Original offsets. -/
theorem memory_init_classification (base size : Nat) :
    (size = 0x1154000 →
      Memory.init base size =
        { start := base + 0x799A77
          load := base + 0x774FE3
          splash := base + 0x74C670
          level := base + 0x7CFC7D
          bullet := base + 0x76DD17
          objective := base + 0x7CF568
          mc := base + 0x799A63 }) ∧
    (size ≠ 0x1154000 →
      Memory.init base size =
        { start := base + 0x689FE2
          load := base + 0x67FC38
          splash := base + 0x653B40
          level := base + 0x685F31
          bullet := base + 0x65B917
          objective := base + 0x656F3C
          mc := base + 0x689FD2 }) := by
  constructor
  · rintro rfl
    rfl
  · intro h
    unfold Memory.init
    split
    · simp_all
    · rfl

/-- Witness for C8: one concrete base with the Remastered image size and
one with a different size. -/
theorem memory_init_classification_witness :
    Memory.init 0x400000 0x1154000 =
      { start := 0x400000 + 0x799A77
        load := 0x400000 + 0x774FE3
        splash := 0x400000 + 0x74C670
        level := 0x400000 + 0x7CFC7D
        bullet := 0x400000 + 0x76DD17
        objective := 0x400000 + 0x7CF568
        mc := 0x400000 + 0x799A63 } ∧
    Memory.init 0x400000 0x1000000 =
      { start := 0x400000 + 0x689FE2
        load := 0x400000 + 0x67FC38
        splash := 0x400000 + 0x653B40
        level := 0x400000 + 0x685F31
        bullet := 0x400000 + 0x65B917
        objective := 0x400000 + 0x656F3C
        mc := 0x400000 + 0x689FD2 } :=
  ⟨(memory_init_classification 0x400000 0x1154000).1 rfl,
   (memory_init_classification 0x400000 0x1000000).2 (by decide)⟩

/-! ## C10: the end-of-mission branch is level-triggered -/

/-- Helper: the full-game split fires whenever the three current values of
the compound condition are in place, whatever the previous values. -/
theorem split_of_compound (w : Watchers) (s : Settings)
    (hil : s.individual_level = false)
    (hl : w.level.pair.map Pair.current = some "Br")
    (hb : w.bullet_cam.pair.map Pair.current = some 1)
    (ho : w.objective.pair.map Pair.current = some 3) :
    split w s = true := by
  obtain ⟨p, hp, hpc⟩ := Option.map_eq_some'.mp hl
  obtain ⟨q, hq, hqc⟩ := Option.map_eq_some'.mp hb
  obtain ⟨r, hr, hrc⟩ := Option.map_eq_some'.mp ho
  obtain ⟨il, spc⟩ := s
  cases hil
  simp [split, endOfMissionBranch, hp, hq, hr, hpc, hqc, hrc, cstr_matches]

/-- C10.  The compound branch needs no transition: whenever the level code
is currently "Br", bullet_cam currently 1 and objective currently 3, the
full-game split fires regardless of the previous values, and it fires
again on the next tick when the same three values are read again. -/
theorem split_compound_level_triggered :
    (∀ (w : Watchers) (s : Settings) (p : Pair String) (q r : Pair Nat),
      s.individual_level = false →
      w.level.pair = some p → p.current = "Br" →
      w.bullet_cam.pair = some q → q.current = 1 →
      w.objective.pair = some r → r.current = 3 →
      split w s = true) ∧
    (∀ (w : Watchers) (rd : Reads) (s : Settings),
      s.individual_level = false →
      rd.level_read = some "Br" → rd.bullet_read = some 1 →
      rd.objective_read = some 3 →
      split (update_loop rd w) s = true) := by
  constructor
  · intro w s p q r hil hp hpc hq hqc hr hrc
    exact split_of_compound w s hil (by simp [hp, hpc]) (by simp [hq, hqc])
      (by simp [hr, hrc])
  · intro w rd s hil hlr hbr hor
    refine split_of_compound _ s hil ?_ ?_ ?_ <;>
      simp only [update_loop, hlr, hbr, hor, Option.getD_some] <;>
      exact update_infallible_pair_current _ _

/-- Witness for C10 at a concrete state where all three values already held
on the previous tick (no transition on any of the three watchers). -/
theorem split_compound_level_triggered_witness :
    split
      { Watchers.default with
        level := ⟨some ⟨"Br", "Br"⟩⟩
        bullet_cam := ⟨some ⟨1, 1⟩⟩
        objective := ⟨some ⟨3, 3⟩⟩
        mc := ⟨some ⟨0, 0⟩⟩ } ⟨false, true⟩ = true :=
  split_compound_level_triggered.1
    { Watchers.default with
      level := ⟨some ⟨"Br", "Br"⟩⟩
      bullet_cam := ⟨some ⟨1, 1⟩⟩
      objective := ⟨some ⟨3, 3⟩⟩
      mc := ⟨some ⟨0, 0⟩⟩ } ⟨false, true⟩
    ⟨"Br", "Br"⟩ ⟨1, 1⟩ ⟨3, 3⟩ rfl rfl rfl rfl rfl rfl rfl

/-! ## C6: the tick-rate command fires once per toggle -/

theorem loading_cmds_filter_rate (o : Option Bool) :
    (loading_cmds o).filter is_tick_rate_cmd = [] := by
  rcases o with _ | b
  · rfl
  · cases b <;> rfl

theorem reset_split_cmds_filter_rate (r s : Bool) :
    (reset_split_cmds r s).filter is_tick_rate_cmd = [] := by
  cases r <;> cases s <;> rfl

theorem run_cmds_filter_rate (w : Watchers) (s : Settings) (a : Memory) :
    (run_cmds w s a).filter is_tick_rate_cmd = [] := by
  simp [run_cmds, List.filter_append, loading_cmds_filter_rate, game_time,
    game_time_cmds, reset_split_cmds_filter_rate]

theorem start_cmds_filter_rate (w : Watchers) (s : Settings) :
    (start_cmds w s).filter is_tick_rate_cmd = [] := by
  simp [start_cmds, List.filter_append, loading_cmds_filter_rate,
    is_tick_rate_cmd]

theorem rate_cmds_filter_rate (w : Watchers) (s : Settings) :
    (rate_cmds w s).filter is_tick_rate_cmd = rate_cmds w s := by
  unfold rate_cmds
  split
  · rfl
  · rfl

theorem tick_filter_rate (a : Memory) (st1 st2 : TimerState) (s : Settings)
    (r : Reads) (w : Watchers) :
    (tick a st1 st2 s r w).2.filter is_tick_rate_cmd = rate_cmds w s := by
  have h1 :
      (if st1 = TimerState.Running ∨ st1 = TimerState.Paused then
          run_cmds (update_loop r (rate_watchers w s)) s a
        else []).filter is_tick_rate_cmd = [] := by
    split
    · exact run_cmds_filter_rate _ _ _
    · rfl
  have h2 :
      (if st2 = TimerState.NotRunning ∧
            start (update_loop r (rate_watchers w s)) s = true then
          start_cmds (update_loop r (rate_watchers w s)) s
        else []).filter is_tick_rate_cmd = [] := by
    split
    · exact start_cmds_filter_rate _ _
    · rfl
  simp [tick, List.filter_append, h1, h2, rate_cmds_filter_rate]

theorem tick_fst_slow_pc (a : Memory) (st1 st2 : TimerState) (s : Settings)
    (r : Reads) (w : Watchers) :
    (tick a st1 st2 s r w).1.slow_pc_mode = s.slow_pc_mode := by
  by_cases h : w.slow_pc_mode = s.slow_pc_mode <;>
    simp [tick, update_loop, rate_watchers, h]

/-- C6.  One loop iteration issues a `set_tick_rate` command exactly when
the `slow_pc_mode` setting read this tick differs from the stored value
(60 Hz when the setting is true, 120 Hz when false); afterwards the stored
value equals the setting, so any later iteration under an unchanged
setting issues no tick-rate command. -/
theorem tick_rate_toggle (a : Memory) (st1 st2 : TimerState) (s : Settings)
    (r : Reads) (w : Watchers) :
    (w.slow_pc_mode ≠ s.slow_pc_mode →
      (tick a st1 st2 s r w).2.filter is_tick_rate_cmd =
        [Command.setTickRate (if s.slow_pc_mode = true then 60 else 120)]) ∧
    (w.slow_pc_mode = s.slow_pc_mode →
      (tick a st1 st2 s r w).2.filter is_tick_rate_cmd = []) ∧
    ((tick a st1 st2 s r w).1.slow_pc_mode = s.slow_pc_mode) ∧
    (∀ (a2 : Memory) (st1b st2b : TimerState) (r2 : Reads),
      (tick a2 st1b st2b s r2 (tick a st1 st2 s r w).1).2.filter
        is_tick_rate_cmd = []) := by
  refine ⟨?_, ?_, tick_fst_slow_pc a st1 st2 s r w, ?_⟩
  · intro h
    rw [tick_filter_rate]
    cases hs : s.slow_pc_mode <;> cases hw : w.slow_pc_mode <;>
      simp_all [rate_cmds]
  · intro h
    rw [tick_filter_rate]
    simp [rate_cmds, h]
  · intro a2 st1b st2b r2
    rw [tick_filter_rate]
    simp [rate_cmds, tick_fst_slow_pc a st1 st2 s r w]

/-- Witness for C6: a concrete toggle from the stored `false` to the
setting `true` issues exactly one `set_tick_rate 60` command. -/
theorem tick_rate_toggle_witness :
    (tick (Memory.init 0 0) TimerState.NotRunning TimerState.NotRunning
        ⟨false, true⟩ ⟨none, none, none, none, none, none, none⟩
        Watchers.default).2.filter is_tick_rate_cmd =
      [Command.setTickRate 60] :=
  (tick_rate_toggle (Memory.init 0 0) TimerState.NotRunning
      TimerState.NotRunning ⟨false, true⟩
      ⟨none, none, none, none, none, none, none⟩ Watchers.default).1
    (by decide)

/-! ## C7: reset and split are mutually exclusive, reset first -/

theorem reset_not_mem_loading_cmds (o : Option Bool) :
    Command.reset ∉ loading_cmds o := by
  rcases o with _ | b
  · simp [loading_cmds]
  · cases b <;> simp [loading_cmds]

theorem reset_not_mem_run_cmds (w : Watchers) (s : Settings) (a : Memory) :
    Command.reset ∉ run_cmds w s a := by
  intro hmem
  simp only [run_cmds, List.mem_append] at hmem
  rcases hmem with (h | h) | h
  · exact reset_not_mem_loading_cmds _ h
  · simp [game_time, game_time_cmds] at h
  · rw [show reset w s = false from rfl] at h
    revert h
    cases split w s <;> simp [reset_split_cmds]

theorem reset_not_mem_start_cmds (w : Watchers) (s : Settings) :
    Command.reset ∉ start_cmds w s := by
  intro hmem
  simp only [start_cmds, List.mem_append] at hmem
  rcases hmem with h | h
  · simp at h
  · exact reset_not_mem_loading_cmds _ h

theorem reset_not_mem_tick (a : Memory) (st1 st2 : TimerState) (s : Settings)
    (r : Reads) (w : Watchers) :
    Command.reset ∉ (tick a st1 st2 s r w).2 := by
  intro hmem
  simp only [tick, List.mem_append] at hmem
  rcases hmem with (h | h) | h
  · revert h
    unfold rate_cmds
    split <;> simp
  · revert h
    split
    · exact reset_not_mem_run_cmds _ _ _
    · simp
  · revert h
    split
    · exact reset_not_mem_start_cmds _ _
    · simp

/-- C7.  On a tick whose first timer-state observation is Running or
Paused, reset and split commands are mutually exclusive (reset is checked
first and split is only consulted when reset returned false, which — the
reset hook being a constant false — it always does). -/
theorem reset_split_exclusive (a : Memory) (st1 st2 : TimerState)
    (s : Settings) (r : Reads) (w : Watchers)
    (_h : st1 = TimerState.Running ∨ st1 = TimerState.Paused) :
    ¬ (Command.reset ∈ (tick a st1 st2 s r w).2 ∧
        Command.split ∈ (tick a st1 st2 s r w).2) ∧
    (Command.split ∈ (tick a st1 st2 s r w).2 →
      reset (tick a st1 st2 s r w).1 s = false) := by
  refine ⟨?_, fun _ => rfl⟩
  rintro ⟨hr, _⟩
  exact reset_not_mem_tick a st1 st2 s r w hr

/-- Witness for C7 at a concrete running tick on which a split actually
fires: no reset command accompanies it. -/
theorem reset_split_exclusive_witness :
    ¬ (Command.reset ∈
        (tick (Memory.init 0 0) TimerState.Running TimerState.Running
          ⟨false, false⟩ ⟨some 0, some 1, some 1, some "L1", some 0, some 0, some 0⟩
          { Watchers.default with level := ⟨some ⟨"nu", "nu"⟩⟩ }).2 ∧
       Command.split ∈
        (tick (Memory.init 0 0) TimerState.Running TimerState.Running
          ⟨false, false⟩ ⟨some 0, some 1, some 1, some "L1", some 0, some 0, some 0⟩
          { Watchers.default with level := ⟨some ⟨"nu", "nu"⟩⟩ }).2) ∧
    (Command.split ∈
        (tick (Memory.init 0 0) TimerState.Running TimerState.Running
          ⟨false, false⟩ ⟨some 0, some 1, some 1, some "L1", some 0, some 0, some 0⟩
          { Watchers.default with level := ⟨some ⟨"nu", "nu"⟩⟩ }).2 →
      reset
        (tick (Memory.init 0 0) TimerState.Running TimerState.Running
          ⟨false, false⟩ ⟨some 0, some 1, some 1, some "L1", some 0, some 0, some 0⟩
          { Watchers.default with level := ⟨some ⟨"nu", "nu"⟩⟩ }).1
        ⟨false, false⟩ = false) :=
  reset_split_exclusive (Memory.init 0 0) TimerState.Running TimerState.Running
    ⟨false, false⟩ ⟨some 0, some 1, some 1, some "L1", some 0, some 0, some 0⟩
    { Watchers.default with level := ⟨some ⟨"nu", "nu"⟩⟩ } (Or.inl rfl)

end SEV2
